import Mathlib

/-!
Shallow embedding of the landmark discovery / significance scoring / selection /
narrative-synthesis pipeline of the 24-7-audio-tour repository.

The TypeScript sources embedded here:
  * `lib/landmarks.ts` (src/unnamed/part_000): `selectBestLandmark`,
    `selectBestLandmarkWithSignificance`, `generateLandmarkNarrative`,
    `getCategoryContext`, `findBestNearbyLandmark`;
  * `app/api/narrative/route.ts`: `dedupeSources`, the three source channels
    (`fetchWikipediaContext`, `fetchOpenStreetMapContext`, `fetchWikidataContext`),
    `generateWithOpenAI`, the POST handler, and the significance scorer
    (`scoreLandmarkSignificance`, `checkWikipediaSignificance`,
    `checkWikidataSignificance`, `checkOpenStreetMapSignificance`);
  * `app/api/places/route.ts` area branch: `fetchAreaInfo`,
    `generateFallbackAreaNarrative`, the area POST handler.

Modelling conventions:
  * JavaScript numbers are embedded as `ℚ` (all numeric code here is exact
    decimal arithmetic and comparisons; no claim depends on float rounding).
  * Network calls are embedded by passing the call's outcome as an explicit
    argument (`FetchOutcome`): `.fail` covers a thrown error, a timeout, or a
    non-success HTTP response wherever the source treats those alike.
  * JavaScript string helpers (`toLowerCase`, `includes`, `trim`, `split`) are
    embedded as executable functions on `String.data` character lists.
  * JavaScript truthiness tests on optional strings (`if (s)`) are embedded by
    `jsTruthy` (present and non-empty).
-/

/-! ## JavaScript string primitives -/

/-- Embeds `String.prototype.toLowerCase` (ASCII case mapping). -/
def jsLower (s : String) : String := ⟨s.data.map Char.toLower⟩

/-- Decides whether `pat` is a prefix of `l` (character-wise). -/
def hasPrefixList : List Char → List Char → Bool
  | [], _ => true
  | _ :: _, [] => false
  | a :: as, b :: bs => a == b && hasPrefixList as bs

/-- Decides whether `pat` occurs as a contiguous substring of `l`. -/
def containsSub (pat : List Char) : List Char → Bool
  | [] => pat.isEmpty
  | c :: rest => hasPrefixList pat (c :: rest) || containsSub pat rest

/-- Embeds `s.includes(pat)` from JavaScript. -/
def strIncludes (s pat : String) : Bool := containsSub pat.data s.data

/-- Embeds JavaScript truthiness of an optional string: defined and non-empty. -/
def jsTruthy : Option String → Bool
  | none => false
  | some s => s ≠ ""

/-- Embeds the JavaScript idiom `a || b` on an optional string with a string
default: the first operand wins when it is truthy (present and non-empty). -/
def jsOrStr (a : Option String) (b : String) : String :=
  match a with
  | some s => if s = "" then b else s
  | none => b

/-- Embeds `s.split(c)[0]`: the characters before the first occurrence of `c`
(the whole string when `c` does not occur). -/
def firstSegment (s : String) (c : Char) : String := ⟨s.data.takeWhile (· ≠ c)⟩

/-- Whitespace recognized by the embedded `String.prototype.trim`. -/
def isJsWhitespace (c : Char) : Bool := c = ' ' || c = '\t' || c = '\n' || c = '\r'

/-- Embeds `String.prototype.trim`: drops whitespace from both ends. -/
def jsTrim (s : String) : String :=
  ⟨((s.data.dropWhile isJsWhitespace).reverse.dropWhile isJsWhitespace).reverse⟩

/-! ## Data model (`types/index.ts`) -/

/-- Embeds the `Coordinates` interface of `types/index.ts`. -/
structure Coordinates where
  lat : ℚ
  lng : ℚ
deriving DecidableEq

/-- Embeds the `Landmark` interface of `types/index.ts`. -/
structure Landmark where
  id : String
  name : String
  category : String
  distance : ℚ
  location : Coordinates
  description : Option String := none
  address : Option String := none
  rating : Option ℚ := none
deriving DecidableEq

/-! ## Landmark selection (`lib/landmarks.ts`) -/

/-- The `SIGNIFICANCE_THRESHOLD` constant of `lib/landmarks.ts`. -/
def SIGNIFICANCE_THRESHOLD : ℤ := 30

/-- Embeds `significanceScores.get(landmark.id) || 0`: the landmark's entry in
the score map, defaulting to 0 when absent (a stored score of 0 is also mapped
to 0 by the `|| 0`, so the embedding agrees with the source on every entry). -/
def scoreLookup (scores : List (String × ℤ)) (id : String) : ℤ :=
  match scores.lookup id with
  | some v => v
  | none => 0

/-- The `significantLandmarks` filter inside `selectBestLandmarkWithSignificance`:
keeps the landmarks whose significance score reaches the threshold. -/
def significantLandmarks (landmarks : List Landmark) (scores : List (String × ℤ))
    (threshold : ℤ) : List Landmark :=
  landmarks.filter (fun lm => threshold ≤ scoreLookup scores lm.id)

/-- One step of the `reduce` in `selectBestLandmarkWithSignificance`:
`current.distance < closest.distance ? current : closest` (the accumulator, the
earlier candidate, wins exact ties). -/
def closerStep (closest current : Landmark) : Landmark :=
  if current.distance < closest.distance then current else closest

/-- Embeds `selectBestLandmarkWithSignificance` of `lib/landmarks.ts`: empty
input returns `none`; otherwise the landmarks are filtered by the significance
threshold, and the filtered list is reduced to its closest member (`reduce`
without an initial value starts from the first element). -/
def selectBestLandmarkWithSignificance (landmarks : List Landmark)
    (scores : List (String × ℤ)) (threshold : ℤ) : Option Landmark :=
  match landmarks with
  | [] => none
  | _ :: _ =>
    match significantLandmarks landmarks scores threshold with
    | [] => none
    | x :: xs => some (xs.foldl closerStep x)

/-- Embeds lines 215-229 of `findBestNearbyLandmark` in `lib/landmarks.ts`: the
first selection pass at `threshold`, followed (only when it produced nothing and
`threshold > 20`) by a single retry at `max(20, threshold - 10)`. -/
def selectWithRelaxation (landmarks : List Landmark) (scores : List (String × ℤ))
    (threshold : ℤ) : Option Landmark :=
  match selectBestLandmarkWithSignificance landmarks scores threshold with
  | some lm => some lm
  | none =>
    if 20 < threshold then
      selectBestLandmarkWithSignificance landmarks scores (max 20 (threshold - 10))
    else none

/-- Written from the spec, for comparison with `selectWithRelaxation`: perform
the selection at `threshold`; when it yields no candidate, perform exactly one
relaxation retry at `max(20, threshold − 10)` unconditionally. -/
def selectWithOneRelaxationSpec (landmarks : List Landmark) (scores : List (String × ℤ))
    (threshold : ℤ) : Option Landmark :=
  match selectBestLandmarkWithSignificance landmarks scores threshold with
  | some lm => some lm
  | none => selectBestLandmarkWithSignificance landmarks scores (max 20 (threshold - 10))

/-- The historical keyword list of `selectBestLandmark` (the deprecated
heuristic selector) in `lib/landmarks.ts`. -/
def selectorHistoricalKeywords : List String :=
  ["monument", "historic", "landmark", "museum", "memorial", "plaza", "square",
   "cathedral", "church", "temple"]

/-- The per-landmark score of `selectBestLandmark`: `rating×10` when a rating is
present (`if (landmark.rating)`; a rating of 0 is falsy in the source and
contributes 0 either way), plus `max(0, 100 − distance/10)`, plus 20 when the
lowercased category contains a historical keyword. -/
def heuristicScore (lm : Landmark) : ℚ :=
  (match lm.rating with
   | some r => r * 10
   | none => 0)
  + max 0 (100 - lm.distance / 10)
  + (if selectorHistoricalKeywords.any (fun kw => strIncludes (jsLower lm.category) kw)
     then 20 else 0)

/-- Stable insertion into a list sorted by strictly decreasing score: the new
element `x` (earlier in the input) is placed before every element whose score
does not strictly exceed `x`'s. This is the behaviour of the source's
`scored.sort((a, b) => b.score - a.score)`, which is a stable sort. -/
def insertScoredDesc (x : Landmark × ℚ) : List (Landmark × ℚ) → List (Landmark × ℚ)
  | [] => [x]
  | y :: ys => if x.2 < y.2 then y :: insertScoredDesc x ys else x :: y :: ys

/-- Stable sort by decreasing score, embedding
`scored.sort((a, b) => b.score - a.score)`. -/
def sortByScoreDesc : List (Landmark × ℚ) → List (Landmark × ℚ)
  | [] => []
  | x :: xs => insertScoredDesc x (sortByScoreDesc xs)

/-- Embeds `selectBestLandmark` of `lib/landmarks.ts`: score every landmark,
sort by descending score (stable), return the first element. -/
def selectBestLandmark (landmarks : List Landmark) : Option Landmark :=
  match landmarks with
  | [] => none
  | _ :: _ =>
    let scored := landmarks.map (fun lm => (lm, heuristicScore lm))
    (sortByScoreDesc scored).head?.map Prod.fst

/-! ## Claim groundwork lemmas -/

theorem hasPrefixList_nil (l : List Char) : hasPrefixList [] l = true := by
  cases l <;> rfl

theorem foldl_closerStep_spec (xs : List Landmark) (x : Landmark) :
    ∃ m, xs.foldl closerStep x = m ∧ m ∈ x :: xs ∧
      (∀ y ∈ x :: xs, m.distance ≤ y.distance) ∧
      ∃ l₁ l₂, x :: xs = l₁ ++ m :: l₂ ∧ ∀ y ∈ l₁, m.distance < y.distance := by
  induction xs generalizing x with
  | nil =>
    exact ⟨x, rfl, List.mem_singleton.mpr rfl,
      by intro y hy; rw [List.mem_singleton] at hy; rw [hy],
      [], [], rfl, by intro y hy; simp at hy⟩
  | cons y ys ih =>
    rw [List.foldl_cons]
    by_cases h : y.distance < x.distance
    · have hstep : closerStep x y = y := by simp [closerStep, h]
      rw [hstep]
      obtain ⟨m, hm, hmem, hmin, k₁, k₂, hdec, hstrict⟩ := ih y
      refine ⟨m, hm, ?_, ?_, x :: k₁, k₂, by rw [List.cons_append, hdec], ?_⟩
      · exact List.mem_cons_of_mem x hmem
      · intro z hz
        rcases List.mem_cons.mp hz with hz | hz
        · subst hz
          have := hmin y (List.mem_cons_self y ys)
          exact le_trans this (le_of_lt h)
        · exact hmin z hz
      · intro z hz
        rcases List.mem_cons.mp hz with hz | hz
        · subst hz
          have := hmin y (List.mem_cons_self y ys)
          exact lt_of_le_of_lt this h
        · exact hstrict z hz
    · have hstep : closerStep x y = x := by simp [closerStep, h]
      rw [hstep]
      push_neg at h
      obtain ⟨m, hm, hmem, hmin, k₁, k₂, hdec, hstrict⟩ := ih x
      refine ⟨m, hm, ?_, ?_, ?_⟩
      · rcases List.mem_cons.mp hmem with hmx | hmys
        · exact hmx ▸ List.mem_cons_self x (y :: ys)
        · exact List.mem_cons_of_mem x (List.mem_cons_of_mem y hmys)
      · intro z hz
        rcases List.mem_cons.mp hz with hz | hz
        · exact hz ▸ hmin x (List.mem_cons_self x ys)
        · rcases List.mem_cons.mp hz with hz | hz
          · subst hz
            exact le_trans (hmin x (List.mem_cons_self x ys)) h
          · exact hmin z (List.mem_cons_of_mem x hz)
      · cases k₁ with
        | nil =>
          have hx : x = m := by simpa using congrArg (fun l => l.head?) hdec
          refine ⟨[], y :: ys, by rw [hx]; rfl, ?_⟩
          intro z hz; simp at hz
        | cons c t =>
          have hc : c = x ∧ x :: ys = x :: (t ++ m :: k₂) := by
            have := hdec
            rw [List.cons_append] at this
            have hh := List.cons.injEq x ys c (t ++ m :: k₂) ▸ this
            exact ⟨(List.cons.injEq x ys c (t ++ m :: k₂)).mp this |>.1.symm,
              by rw [this, ((List.cons.injEq x ys c (t ++ m :: k₂)).mp this).1]⟩
          obtain ⟨hcx, htail⟩ := hc
          have hys : ys = t ++ m :: k₂ := by
            exact (List.cons.injEq x ys x (t ++ m :: k₂)).mp htail |>.2
          have hxm : m.distance < x.distance := by
            apply hstrict
            rw [hcx] at hdec ⊢
            exact List.mem_cons_self x t
          refine ⟨x :: y :: t, k₂, ?_, ?_⟩
          · rw [hys]; rfl
          · intro z hz
            rcases List.mem_cons.mp hz with hz | hz
            · exact hz ▸ hxm
            · rcases List.mem_cons.mp hz with hz | hz
              · subst hz; exact lt_of_lt_of_le hxm h
              · apply hstrict
                rw [hcx] at hstrict ⊢
                exact List.mem_cons_of_mem x hz

theorem significantLandmarks_nil_of_le {landmarks : List Landmark}
    {scores : List (String × ℤ)} {t t' : ℤ} (h : t ≤ t')
    (hnil : significantLandmarks landmarks scores t = []) :
    significantLandmarks landmarks scores t' = [] := by
  rw [significantLandmarks, List.filter_eq_nil_iff] at hnil ⊢
  intro a ha hle
  apply hnil a ha
  simp only [decide_eq_true_eq] at hle ⊢
  omega

theorem selectWithSignificance_none_of_le {landmarks : List Landmark}
    {scores : List (String × ℤ)} {t t' : ℤ} (h : t ≤ t')
    (hnone : selectBestLandmarkWithSignificance landmarks scores t = none) :
    selectBestLandmarkWithSignificance landmarks scores t' = none := by
  cases hl : landmarks with
  | nil => rw [selectBestLandmarkWithSignificance]
  | cons a l =>
    rw [hl] at hnone
    rw [selectBestLandmarkWithSignificance] at hnone ⊢
    cases hf : significantLandmarks (a :: l) scores t with
    | nil =>
      rw [significantLandmarks_nil_of_le h hf]
    | cons b f => rw [hf] at hnone; simp at hnone

/-! ## C1 and C2: threshold selection and relaxation -/

/-- Example landmark A of the spec's selection test (distance 100 m). -/
def exLandmarkA : Landmark :=
  { id := "A", name := "A", category := "Museum", distance := 100,
    location := { lat := 0, lng := 0 } }

/-- Example landmark B of the spec's selection test (distance 500 m). -/
def exLandmarkB : Landmark :=
  { id := "B", name := "B", category := "Museum", distance := 500,
    location := { lat := 0, lng := 0 } }

/-- C1: `selectBestLandmarkWithSignificance` restricts to the landmarks whose
score is at least the threshold; when that restriction is non-empty it returns
the member with minimum distance, ties resolved in favour of the first such
candidate in input order; when the restriction is empty it returns `none`. In
particular, with scores `{A:25, B:35}`, distances `A:100` and `B:500`, and
threshold 30, it returns B. -/
theorem selectBestLandmarkWithSignificance_correct (landmarks : List Landmark)
    (scores : List (String × ℤ)) (threshold : ℤ) :
    (significantLandmarks landmarks scores threshold = [] →
      selectBestLandmarkWithSignificance landmarks scores threshold = none)
    ∧ (∀ a f, significantLandmarks landmarks scores threshold = a :: f →
        ∃ m, selectBestLandmarkWithSignificance landmarks scores threshold = some m ∧
          m ∈ a :: f ∧ (∀ y ∈ a :: f, m.distance ≤ y.distance) ∧
          ∃ l₁ l₂, a :: f = l₁ ++ m :: l₂ ∧ ∀ y ∈ l₁, m.distance < y.distance)
    ∧ selectBestLandmarkWithSignificance [exLandmarkA, exLandmarkB]
        [("A", 25), ("B", 35)] 30 = some exLandmarkB := by
  refine ⟨?_, ?_, by decide⟩
  · intro hnil
    cases landmarks with
    | nil => rfl
    | cons a l =>
      rw [selectBestLandmarkWithSignificance, hnil]
  · intro a f hf
    cases landmarks with
    | nil => simp [significantLandmarks] at hf
    | cons b l =>
      rw [selectBestLandmarkWithSignificance, hf]
      obtain ⟨m, hm, hmem, hmin, hdec⟩ := foldl_closerStep_spec f a
      refine ⟨m, ?_, hmem, hmin, hdec⟩
      show some (f.foldl closerStep a) = some m
      rw [hm]

/-- Witness for C1: the theorem applied at the spec's concrete example, with the
non-empty restriction `[B]` and every hypothesis discharged there. -/
theorem selectBestLandmarkWithSignificance_correct_witness :
    (∃ m, selectBestLandmarkWithSignificance [exLandmarkA, exLandmarkB]
        [("A", 25), ("B", 35)] 30 = some m ∧
      m ∈ [exLandmarkB] ∧ (∀ y ∈ [exLandmarkB], m.distance ≤ y.distance) ∧
      ∃ l₁ l₂, [exLandmarkB] = l₁ ++ m :: l₂ ∧ ∀ y ∈ l₁, m.distance < y.distance) ∧
    selectBestLandmarkWithSignificance [exLandmarkA, exLandmarkB]
        [("A", 25), ("B", 35)] 30 = some exLandmarkB :=
  ⟨(selectBestLandmarkWithSignificance_correct [exLandmarkA, exLandmarkB]
      [("A", 25), ("B", 35)] 30).2.1 exLandmarkB [] (by decide),
   (selectBestLandmarkWithSignificance_correct [exLandmarkA, exLandmarkB]
      [("A", 25), ("B", 35)] 30).2.2⟩

/-- Example landmark used in the relaxation tests of the spec. -/
def exLandmarkR : Landmark :=
  { id := "A", name := "A", category := "Museum", distance := 100,
    location := { lat := 0, lng := 0 } }

/-- C2: the selection logic of `findBestNearbyLandmark` equals the spec's
single-relaxation semantics: when the first pass at `threshold` yields no
candidate there is exactly one retry at `max(20, threshold − 10)`, and if that
also yields nothing the outcome is no candidate (the source skips the retry
when `threshold ≤ 20`, which is observationally identical because the retry
threshold would then be at least the original one). In particular scores
`{A:22}` at threshold 30 give A, and scores `{A:10}` give no candidate. -/
theorem selectWithRelaxation_correct (landmarks : List Landmark)
    (scores : List (String × ℤ)) (threshold : ℤ) :
    selectWithRelaxation landmarks scores threshold =
      selectWithOneRelaxationSpec landmarks scores threshold
    ∧ selectWithRelaxation [exLandmarkR] [("A", 22)] 30 = some exLandmarkR
    ∧ selectWithRelaxation [exLandmarkR] [("A", 10)] 30 = none := by
  refine ⟨?_, by decide, by decide⟩
  rw [selectWithRelaxation, selectWithOneRelaxationSpec]
  cases h : selectBestLandmarkWithSignificance landmarks scores threshold with
  | some lm => rfl
  | none =>
    by_cases ht : 20 < threshold
    · rw [if_pos ht]
    · rw [if_neg ht]
      have hmax : max 20 (threshold - 10) = 20 := by omega
      rw [hmax]
      exact (selectWithSignificance_none_of_le (by omega) h).symm

/-! ## C8: the deterministic heuristic fallback selector -/

theorem insertScoredDesc_ne_nil (x : Landmark × ℚ) (l : List (Landmark × ℚ)) :
    insertScoredDesc x l ≠ [] := by
  cases l with
  | nil => simp [insertScoredDesc]
  | cons y ys =>
    rw [insertScoredDesc]
    split <;> simp

theorem head?_insertScoredDesc (x y : Landmark × ℚ) (ys : List (Landmark × ℚ)) :
    (insertScoredDesc x (y :: ys)).head? = some (if x.2 < y.2 then y else x) := by
  rw [insertScoredDesc]
  split <;> rfl

theorem sortByScoreDesc_head_spec (l : List (Landmark × ℚ)) (hne : l ≠ []) :
    ∃ m, (sortByScoreDesc l).head? = some m ∧ m ∈ l ∧ (∀ x ∈ l, x.2 ≤ m.2) ∧
      ∃ l₁ l₂, l = l₁ ++ m :: l₂ ∧ ∀ x ∈ l₁, x.2 < m.2 := by
  induction l with
  | nil => exact absurd rfl hne
  | cons x xs ih =>
    cases xs with
    | nil =>
      refine ⟨x, rfl, List.mem_singleton.mpr rfl, ?_, [], [], rfl, ?_⟩
      · intro y hy; rw [List.mem_singleton] at hy; rw [hy]
      · intro y hy; simp at hy
    | cons y ys =>
      obtain ⟨m, hm, hmem, hmax, k₁, k₂, hdec, hstrict⟩ := ih (by simp)
      rw [sortByScoreDesc]
      cases hs : sortByScoreDesc (y :: ys) with
      | nil => exact absurd hs (by rw [sortByScoreDesc]; exact insertScoredDesc_ne_nil y _)
      | cons m' rest =>
        have hm' : m' = m := by
          rw [hs] at hm; simpa using hm
        subst hm'
        rw [head?_insertScoredDesc]
        by_cases hlt : x.2 < m'.2
        · rw [if_pos hlt]
          refine ⟨m', rfl, List.mem_cons_of_mem x hmem, ?_, x :: k₁, k₂,
            by rw [List.cons_append, hdec], ?_⟩
          · intro z hz
            rcases List.mem_cons.mp hz with hz | hz
            · exact hz ▸ le_of_lt hlt
            · exact hmax z hz
          · intro z hz
            rcases List.mem_cons.mp hz with hz | hz
            · exact hz ▸ hlt
            · exact hstrict z hz
        · rw [if_neg hlt]
          push_neg at hlt
          refine ⟨x, rfl, List.mem_cons_self x _, ?_, [], y :: ys, rfl, ?_⟩
          · intro z hz
            rcases List.mem_cons.mp hz with hz | hz
            · exact hz ▸ le_refl _
            · exact le_trans (hmax z hz) hlt
          · intro z hz; simp at hz
  
theorem map_eq_append_cons_decomp {α β : Type} (f : α → β) :
    ∀ (L : List α) (l₁ : List β) (m : β) (l₂ : List β),
      L.map f = l₁ ++ m :: l₂ →
      ∃ L₁ a L₂, L = L₁ ++ a :: L₂ ∧ L₁.map f = l₁ ∧ f a = m ∧ L₂.map f = l₂ := by
  intro L
  induction L with
  | nil =>
    intro l₁ m l₂ h
    simp only [List.map_nil] at h
    exact absurd h.symm (List.append_ne_nil_of_right_ne_nil l₁ (by simp))
  | cons a L ihL =>
    intro l₁ m l₂ h
    cases l₁ with
    | nil =>
      simp only [List.map_cons, List.nil_append] at h ⊢
      obtain ⟨hfa, hmap⟩ := (List.cons.injEq _ _ _ _).mp h
      exact ⟨[], a, L, by simp, by simp, hfa, hmap⟩
    | cons c t =>
      simp only [List.map_cons, List.cons_append] at h
      obtain ⟨hfa, hmap⟩ := (List.cons.injEq _ _ _ _).mp h
      obtain ⟨L₁, b, L₂, hL, hmap₁, hfb, hmap₂⟩ := ihL t m l₂ hmap
      exact ⟨a :: L₁, b, L₂, by rw [hL]; rfl, by simp [hfa, hmap₁], hfb, hmap₂⟩

/-- Example landmark of the spec's heuristic-fallback test: rating 9.0,
category "Monument", distance 50 m. -/
def exMonument : Landmark :=
  { id := "M", name := "Old Monument", category := "Monument", distance := 50,
    location := { lat := 0, lng := 0 }, rating := some 9 }

/-- C8: on a non-empty list, the heuristic fallback selector returns a landmark
of maximum heuristic score (`rating×10` when present, plus
`max(0, 100 − distance/10)`, plus 20 for a historical-keyword category), with
exact-score ties broken in favour of the first-seen landmark, and never returns
no candidate. In particular a single landmark with rating 9.0, category
"Monument" and distance 50 m is always selected. -/
theorem selectBestLandmark_correct (landmarks : List Landmark)
    (hne : landmarks ≠ []) :
    (∃ m, selectBestLandmark landmarks = some m ∧ m ∈ landmarks ∧
      (∀ x ∈ landmarks, heuristicScore x ≤ heuristicScore m) ∧
      ∃ L₁ L₂, landmarks = L₁ ++ m :: L₂ ∧
        ∀ x ∈ L₁, heuristicScore x < heuristicScore m)
    ∧ selectBestLandmark [exMonument] = some exMonument := by
  refine ⟨?_, rfl⟩
  cases hL : landmarks with
  | nil => exact absurd hL hne
  | cons a L =>
    obtain ⟨p, hp, hpmem, hpmax, k₁, k₂, hdec, hstrict⟩ :=
      sortByScoreDesc_head_spec ((a :: L).map (fun lm => (lm, heuristicScore lm)))
        (by simp)
    obtain ⟨L₁, b, L₂, hLdec, hmap₁, hfb, hmap₂⟩ :=
      map_eq_append_cons_decomp (fun lm => (lm, heuristicScore lm)) (a :: L) k₁ p k₂ hdec
    have hb1 : p.1 = b := by rw [← hfb]
    have hb2 : p.2 = heuristicScore b := by rw [← hfb]
    refine ⟨p.1, ?_, ?_, ?_, L₁, L₂, by rw [hb1, ← hLdec], ?_⟩
    · show ((sortByScoreDesc _).head?.map Prod.fst) = some p.1
      rw [hp]; rfl
    · rw [hb1, hLdec]
      exact List.mem_append_right L₁ (List.mem_cons_self b L₂)
    · intro x hx
      have hmem2 : (x, heuristicScore x) ∈ (a :: L).map (fun lm => (lm, heuristicScore lm)) :=
        List.mem_map_of_mem _ hx
      have hle := hpmax _ hmem2
      rw [hb2] at hle
      rw [hb1]
      simpa using hle
    · intro x hx
      have hxk : (x, heuristicScore x) ∈ k₁ := by
        rw [← hmap₁]
        exact List.mem_map_of_mem _ hx
      have hlt := hstrict _ hxk
      rw [hb2] at hlt
      rw [hb1]
      simpa using hlt

/-- Witness for C8: the theorem applied to the one-landmark list of the spec's
test, its non-emptiness hypothesis discharged there. -/
theorem selectBestLandmark_correct_witness :
    ((∃ m, selectBestLandmark [exMonument] = some m ∧ m ∈ [exMonument] ∧
      (∀ x ∈ [exMonument], heuristicScore x ≤ heuristicScore m) ∧
      ∃ L₁ L₂, [exMonument] = L₁ ++ m :: L₂ ∧
        ∀ x ∈ L₁, heuristicScore x < heuristicScore m)
    ∧ selectBestLandmark [exMonument] = some exMonument) :=
  selectBestLandmark_correct [exMonument] (by simp)

/-! ## C9: tier-2 template narrative (`generateLandmarkNarrative`) -/

/-- Embeds `Math.round`: rounds to the nearest integer, halves toward +∞. -/
def jsRound (q : ℚ) : ℤ := ⌊q + 1 / 2⌋

/-- Renders `n / 10` the way JavaScript prints `Math.round(d / 100) / 10` in a
template literal: an integer when `n` is a multiple of 10, otherwise one
decimal digit. -/
def formatTenths (n : ℤ) : String :=
  if n % 10 = 0 then toString (n / 10)
  else toString (n / 10) ++ "." ++ toString (n % 10)

/-- The `distanceText` computation at the top of `generateLandmarkNarrative`. -/
def distanceText (d : ℚ) : String :=
  if d < 100 then "right here"
  else if d < 500 then "just steps away"
  else if d < 1000 then "a short walk away"
  else "about " ++ formatTenths (jsRound (d / 100)) ++ " kilometers away"

/-- Embeds `getCategoryContext` of `lib/landmarks.ts`: the first matching
keyword group wins, no match gives the empty string. -/
def getCategoryContext (category : String) : String :=
  let c := jsLower category
  if strIncludes c "monument" || strIncludes c "memorial" then
    "This monument stands as a testament to the people and events that shaped this place. "
  else if strIncludes c "museum" then
    "This museum preserves and shares the stories of this region. "
  else if strIncludes c "historic" || strIncludes c "historic site" then
    "This historic site has witnessed countless moments in history. "
  else if strIncludes c "cathedral" || strIncludes c "church" || strIncludes c "temple" then
    "This sacred space has been a center of community and spirituality for generations. "
  else if strIncludes c "plaza" || strIncludes c "square" then
    "This public square has been a gathering place for the community. "
  else ""

/-- Embeds `generateLandmarkNarrative` of `lib/landmarks.ts`: opening sentence
with the distance phrase, optional category context (`if (categoryContext)`),
the landmark's own description when truthy or a generic filler otherwise, and
the fixed closing sentence. -/
def generateLandmarkNarrative (lm : Landmark) : String :=
  let dText := distanceText lm.distance
  let categoryContext := getCategoryContext lm.category
  let n1 := "You\x27re standing near " ++ lm.name ++ ", " ++ dText ++ ". "
  let n2 := if categoryContext ≠ "" then n1 ++ categoryContext else n1
  let n3 :=
    match lm.description with
    | some desc =>
      if desc ≠ "" then n2 ++ (" " ++ desc)
      else n2 ++ (" This " ++ jsLower lm.category ++ " holds significance in the local area. ")
    | none => n2 ++ (" This " ++ jsLower lm.category ++ " holds significance in the local area. ")
  n3 ++ " Take a moment to appreciate the history and culture that surrounds you."

/-- C9: the template narrative opens with the landmark name followed by the
distance phrase, and the distance phrase is chosen by bucket: under 100 m
"right here", under 500 m "just steps away", under 1000 m "a short walk away",
otherwise "about N.N kilometers away" with the kilometre figure rounded to one
decimal place (`Math.round(distance / 100) / 10`). -/
theorem generateLandmarkNarrative_distance_buckets (lm : Landmark) :
    (∃ rest, generateLandmarkNarrative lm =
      "You\x27re standing near " ++ lm.name ++ ", " ++ distanceText lm.distance
        ++ ". " ++ rest)
    ∧ (lm.distance < 100 → distanceText lm.distance = "right here")
    ∧ (100 ≤ lm.distance → lm.distance < 500 →
        distanceText lm.distance = "just steps away")
    ∧ (500 ≤ lm.distance → lm.distance < 1000 →
        distanceText lm.distance = "a short walk away")
    ∧ (1000 ≤ lm.distance →
        distanceText lm.distance =
          "about " ++ formatTenths (jsRound (lm.distance / 100)) ++ " kilometers away") := by
  refine ⟨?_, ?_, ?_, ?_, ?_⟩
  · have hctx : ∀ n1 c : String,
        (if c ≠ "" then n1 ++ c else n1) = n1 ++ (if c ≠ "" then c else "") := by
      intro n1 c
      split
      · rfl
      · rw [String.append_empty]
    rw [generateLandmarkNarrative]
    cases hd : lm.description with
    | none =>
      by_cases hcat : getCategoryContext lm.category = ""
      all_goals refine ⟨(if getCategoryContext lm.category ≠ "" then
          getCategoryContext lm.category
          else "") ++ (" This " ++ jsLower lm.category
            ++ " holds significance in the local area. "
            ++ " Take a moment to appreciate the history and culture that surrounds you."), ?_⟩
      all_goals simp [hcat, String.append_assoc]
    | some desc =>
      by_cases hdesc : desc = ""
      · by_cases hcat : getCategoryContext lm.category = ""
        all_goals refine ⟨(if getCategoryContext lm.category ≠ "" then
            getCategoryContext lm.category
            else "") ++ (" This " ++ jsLower lm.category
              ++ " holds significance in the local area. "
              ++ " Take a moment to appreciate the history and culture that surrounds you."), ?_⟩
        all_goals simp [hcat, hdesc, String.append_assoc]
      · by_cases hcat : getCategoryContext lm.category = ""
        all_goals refine ⟨(if getCategoryContext lm.category ≠ "" then
            getCategoryContext lm.category
            else "") ++ (" " ++ desc
              ++ " Take a moment to appreciate the history and culture that surrounds you."), ?_⟩
        all_goals simp [hcat, hdesc, String.append_assoc]
  · intro h
    rw [distanceText, if_pos h]
  · intro h1 h2
    rw [distanceText, if_neg (by linarith), if_pos h2]
  · intro h1 h2
    rw [distanceText, if_neg (by linarith), if_neg (by linarith), if_pos h2]
  · intro h
    rw [distanceText, if_neg (by linarith), if_neg (by linarith), if_neg (by linarith)]

/-- Witness for C9: the theorem applied at a concrete landmark 250 m away, with
the bucket bounds discharged there, giving the "just steps away" phrase. -/
theorem generateLandmarkNarrative_distance_buckets_witness :
    (∃ rest, generateLandmarkNarrative
        { id := "W", name := "W", category := "Museum", distance := 250,
          location := { lat := 0, lng := 0 } } =
      "You\x27re standing near " ++ "W" ++ ", " ++ distanceText 250 ++ ". " ++ rest)
    ∧ distanceText (250 : ℚ) = "just steps away" :=
  ⟨(generateLandmarkNarrative_distance_buckets
      { id := "W", name := "W", category := "Museum", distance := 250,
        location := { lat := 0, lng := 0 } }).1,
   (generateLandmarkNarrative_distance_buckets
      { id := "W", name := "W", category := "Museum", distance := 250,
        location := { lat := 0, lng := 0 } }).2.2.1 (by norm_num) (by norm_num)⟩

/-! ## C3: significance scorer (`app/api/significance/route.ts`) -/

/-- Number of keywords from `keywords` occurring in `text`, embedding
`keywords.filter((kw) => text.includes(kw)).length`. -/
def matchCount (keywords : List String) (text : String) : ℕ :=
  (keywords.filter (fun kw => strIncludes text kw)).length

/-- The significance keyword list of `checkWikipediaSignificance`. -/
def wikiSignificanceKeywords : List String :=
  ["famous", "historic", "landmark", "heritage", "unesco", "monument", "tourist",
   "attraction", "significant", "important"]

/-- The significance keyword list of `checkWikidataSignificance`. -/
def wikidataSignificanceKeywords : List String :=
  ["heritage", "monument", "landmark", "historic", "unesco", "tourist", "attraction"]

/-- The historical keyword list of `scoreLandmarkSignificance` (longer than the
selector's list: it adds palace, castle, tower, bridge and drops plaza,
square). -/
def scorerHistoricalKeywords : List String :=
  ["monument", "historic", "landmark", "museum", "memorial", "cathedral", "church",
   "temple", "palace", "castle", "tower", "bridge"]

/-- The top encyclopedic search hit consumed by `checkWikipediaSignificance`. -/
structure WikiHit where
  title : String
  snippet : String
deriving DecidableEq

/-- The knowledge-graph entity consumed by `checkWikidataSignificance`:
`heritageFound` records whether the nested SPARQL heritage lookup succeeded
with a binding (its own failure is caught and contributes nothing). -/
structure WikidataHit where
  id : String
  description : Option String := none
  heritageFound : Bool := false
deriving DecidableEq

/-- The `extratags` record consumed by `checkOpenStreetMapSignificance`. -/
structure OsmTags where
  tourism : Option String := none
  historic : Option String := none
  heritage : Option String := none
  heritageOperator : Option String := none
  wikipedia : Option String := none
deriving DecidableEq

/-- Embeds `checkWikipediaSignificance` (0-40 points): for a failed call, a
non-success response or no search results the input is `none` and the score 0;
otherwise base 20 (5 for a disambiguation snippet), plus 2 per matched
significance keyword capped at 20, all capped at 40. -/
def checkWikipediaSignificance (resp : Option WikiHit) : ℤ :=
  match resp with
  | none => 0
  | some result =>
    let snippetLower := jsLower result.snippet
    let base : ℤ := if strIncludes snippetLower "disambiguation" then 5 else 20
    let score := base + min ((matchCount wikiSignificanceKeywords snippetLower : ℤ) * 2) 20
    min score 40

/-- Embeds `checkWikidataSignificance` (0-30 points): `none` (failure or no
entity) gives 0; otherwise base 10, plus 3 per matched keyword in a truthy
description capped at 20, plus 10 for a heritage designation, capped at 30. -/
def checkWikidataSignificance (resp : Option WikidataHit) : ℤ :=
  match resp with
  | none => 0
  | some result =>
    let descScore : ℤ :=
      match result.description with
      | some desc =>
        if desc ≠ "" then
          min ((matchCount wikidataSignificanceKeywords (jsLower desc) : ℤ) * 3) 20
        else 0
      | none => 0
    let score := 10 + descScore + (if result.heritageFound then 10 else 0)
    min score 30

/-- Embeds `checkOpenStreetMapSignificance` (0-20 points): `none` (failure, a
non-success response, or no extratags) gives 0; otherwise tourism, historic,
heritage and wikipedia tag bonuses stack and are capped at 20. -/
def checkOpenStreetMapSignificance (resp : Option OsmTags) : ℤ :=
  match resp with
  | none => 0
  | some tags =>
    let tourismScore : ℤ :=
      match tags.tourism with
      | some tv =>
        if tv ≠ "" then
          let tl := jsLower tv
          if tl ∈ ["attraction", "museum", "monument", "artwork", "viewpoint"] then 10
          else if tl = "information" then 3
          else 0
        else 0
      | none => 0
    let score := tourismScore
      + (if jsTruthy tags.historic then 8 else 0)
      + (if jsTruthy tags.heritage || jsTruthy tags.heritageOperator then 5 else 0)
      + (if jsTruthy tags.wikipedia then 2 else 0)
    min score 20

/-- The Foursquare-rating bonus of `scoreLandmarkSignificance`:
`if (landmark.rating && landmark.rating >= 8.0)` gives 10, else
`if (landmark.rating && landmark.rating >= 7.0)` gives 5 (a rating of 0 is
falsy, and fails both comparisons anyway). -/
def ratingBonus (rating : Option ℚ) : ℤ :=
  match rating with
  | some r => if r ≠ 0 ∧ 8 ≤ r then 10 else if r ≠ 0 ∧ 7 ≤ r then 5 else 0
  | none => 0

/-- The historical-category bonus of `scoreLandmarkSignificance`. -/
def categoryBonus (category : String) : ℤ :=
  if scorerHistoricalKeywords.any (fun kw => strIncludes (jsLower category) kw) then 10
  else 0

/-- Embeds `scoreLandmarkSignificance`: the three provider signals (each passed
in as the outcome of its own time-boxed call) plus the rating and category
bonuses, capped at `maxScore = 100`. -/
def scoreLandmarkSignificance (lm : Landmark) (wiki : Option WikiHit)
    (wikidata : Option WikidataHit) (osm : Option OsmTags) : ℤ :=
  let score := checkWikipediaSignificance wiki + checkWikidataSignificance wikidata
    + checkOpenStreetMapSignificance osm
  let score := score + ratingBonus lm.rating
  let score := score + categoryBonus lm.category
  min score 100

theorem checkWikipediaSignificance_bounds (resp : Option WikiHit) :
    0 ≤ checkWikipediaSignificance resp ∧ checkWikipediaSignificance resp ≤ 40 := by
  cases resp with
  | none => simp [checkWikipediaSignificance]
  | some r =>
    rw [checkWikipediaSignificance]
    have h2 : (0 : ℤ) ≤ min ((matchCount wikiSignificanceKeywords (jsLower r.snippet) : ℤ) * 2) 20 := by
      apply le_min _ (by norm_num)
      positivity
    constructor
    · apply le_min _ (by norm_num)
      split <;> omega
    · exact min_le_right _ _

theorem checkWikidataSignificance_bounds (resp : Option WikidataHit) :
    0 ≤ checkWikidataSignificance resp ∧ checkWikidataSignificance resp ≤ 30 := by
  cases resp with
  | none => simp [checkWikidataSignificance]
  | some r =>
    rw [checkWikidataSignificance]
    have h2 : (0 : ℤ) ≤ (match r.description with
        | some desc =>
          if desc ≠ "" then
            min ((matchCount wikidataSignificanceKeywords (jsLower desc) : ℤ) * 3) 20
          else 0
        | none => 0) := by
      rcases r.description with _ | desc
      · simp
      · simp only []
        split
        · apply le_min _ (by norm_num)
          positivity
        · simp
    constructor
    · apply le_min _ (by norm_num)
      split <;> omega
    · exact min_le_right _ _

theorem checkOpenStreetMapSignificance_bounds (resp : Option OsmTags) :
    0 ≤ checkOpenStreetMapSignificance resp ∧ checkOpenStreetMapSignificance resp ≤ 20 := by
  cases resp with
  | none => simp [checkOpenStreetMapSignificance]
  | some t =>
    rw [checkOpenStreetMapSignificance]
    have h2 : (0 : ℤ) ≤ (match t.tourism with
        | some tv =>
          if tv ≠ "" then
            let tl := jsLower tv
            if tl ∈ ["attraction", "museum", "monument", "artwork", "viewpoint"] then (10 : ℤ)
            else if tl = "information" then 3
            else 0
          else 0
        | none => 0) := by
      rcases t.tourism with _ | tv
      · simp
      · simp only []
        split
        · split
          · norm_num
          · split <;> norm_num
        · simp
    constructor
    · apply le_min _ (by norm_num)
      have i1 : (0 : ℤ) ≤ if jsTruthy t.historic then 8 else 0 := by split <;> norm_num
      have i2 : (0 : ℤ) ≤ if jsTruthy t.heritage || jsTruthy t.heritageOperator then 5 else 0 := by
        split <;> norm_num
      have i3 : (0 : ℤ) ≤ if jsTruthy t.wikipedia then 2 else 0 := by split <;> norm_num
      exact add_nonneg (add_nonneg (add_nonneg h2 i1) i2) i3
    · exact min_le_right _ _

theorem ratingBonus_bounds (rating : Option ℚ) :
    0 ≤ ratingBonus rating ∧ ratingBonus rating ≤ 10 := by
  cases rating with
  | none => simp [ratingBonus]
  | some r =>
    rw [ratingBonus]
    split
    · omega
    · split <;> omega

theorem categoryBonus_bounds (category : String) :
    0 ≤ categoryBonus category ∧ categoryBonus category ≤ 10 := by
  rw [categoryBonus]
  split <;> omega

/-- C3: for every landmark and every combination of provider-signal outcomes
(including any subset of the providers failing, which yields `none` for that
signal), the significance score is an integer in [0,100]; each signal is
individually capped (encyclopedic 40, knowledge-graph 30, geodata 20) and
non-negative, the rating and category bonuses are each in [0,10], and the
total is clamped to at most 100. -/
theorem scoreLandmarkSignificance_bounds (lm : Landmark) (wiki : Option WikiHit)
    (wikidata : Option WikidataHit) (osm : Option OsmTags) :
    (0 ≤ scoreLandmarkSignificance lm wiki wikidata osm
      ∧ scoreLandmarkSignificance lm wiki wikidata osm ≤ 100)
    ∧ (0 ≤ checkWikipediaSignificance wiki ∧ checkWikipediaSignificance wiki ≤ 40)
    ∧ (0 ≤ checkWikidataSignificance wikidata ∧ checkWikidataSignificance wikidata ≤ 30)
    ∧ (0 ≤ checkOpenStreetMapSignificance osm ∧ checkOpenStreetMapSignificance osm ≤ 20)
    ∧ (0 ≤ ratingBonus lm.rating ∧ ratingBonus lm.rating ≤ 10)
    ∧ (0 ≤ categoryBonus lm.category ∧ categoryBonus lm.category ≤ 10) := by
  obtain ⟨hw0, hw1⟩ := checkWikipediaSignificance_bounds wiki
  obtain ⟨hd0, hd1⟩ := checkWikidataSignificance_bounds wikidata
  obtain ⟨ho0, ho1⟩ := checkOpenStreetMapSignificance_bounds osm
  obtain ⟨hr0, hr1⟩ := ratingBonus_bounds lm.rating
  obtain ⟨hc0, hc1⟩ := categoryBonus_bounds lm.category
  refine ⟨⟨?_, ?_⟩, ⟨hw0, hw1⟩, ⟨hd0, hd1⟩, ⟨ho0, ho1⟩, ⟨hr0, hr1⟩, ⟨hc0, hc1⟩⟩
  · rw [scoreLandmarkSignificance]
    apply le_min _ (by norm_num)
    omega
  · exact min_le_right _ _

/-! ## C4 and C10: source deduplication (`app/api/narrative/route.ts`) -/

/-- The `NarrativeSource` type of `app/api/narrative/route.ts`. -/
structure NarrativeSource where
  title : String
  url : String
  excerpt : Option String := none
deriving DecidableEq

/-- The deduplication key of `dedupeSources`: the single concatenated string
`` `${s.title}|${s.url}` ``. -/
def dedupeKey (s : NarrativeSource) : String := s.title ++ "|" ++ s.url

/-- The loop of `dedupeSources`, with the `seen` set of keys made explicit. -/
def dedupeGo (seen : List String) : List NarrativeSource → List NarrativeSource
  | [] => []
  | s :: rest =>
    if dedupeKey s ∈ seen then dedupeGo seen rest
    else s :: dedupeGo (dedupeKey s :: seen) rest

/-- Embeds `dedupeSources`: keeps the first occurrence of every key, in input
order. -/
def dedupeSources (sources : List NarrativeSource) : List NarrativeSource :=
  dedupeGo [] sources

theorem dedupeGo_key_not_seen (seen : List String) (l : List NarrativeSource) :
    ∀ s ∈ dedupeGo seen l, dedupeKey s ∉ seen := by
  induction l generalizing seen with
  | nil => intro s hs; simp [dedupeGo] at hs
  | cons a rest ih =>
    intro s hs
    rw [dedupeGo] at hs
    split at hs
    · exact ih seen s hs
    · rcases List.mem_cons.mp hs with hsa | hs'
      · subst hsa; assumption
      · intro hmem
        exact (ih _ s hs') (List.mem_cons_of_mem _ hmem)

theorem dedupeGo_pairwise (seen : List String) (l : List NarrativeSource) :
    (dedupeGo seen l).Pairwise (fun a b => dedupeKey a ≠ dedupeKey b) := by
  induction l generalizing seen with
  | nil => simp [dedupeGo]
  | cons a rest ih =>
    rw [dedupeGo]
    split
    · exact ih seen
    · refine List.Pairwise.cons ?_ (ih _)
      intro b hb hkey
      have := dedupeGo_key_not_seen _ _ b hb
      exact this (hkey ▸ List.mem_cons_self _ _)

theorem dedupeGo_sublist (seen : List String) (l : List NarrativeSource) :
    (dedupeGo seen l).Sublist l := by
  induction l generalizing seen with
  | nil => simp [dedupeGo]
  | cons a rest ih =>
    rw [dedupeGo]
    split
    · exact (ih seen).cons a
    · exact (ih _).cons₂ a

theorem dedupeGo_first_occurrence (seen : List String) (l : List NarrativeSource) :
    ∀ s ∈ dedupeGo seen l, ∃ l₁ l₂, l = l₁ ++ s :: l₂ ∧
      ∀ x ∈ l₁, dedupeKey x ∈ seen ∨ dedupeKey x ≠ dedupeKey s := by
  induction l generalizing seen with
  | nil => intro s hs; simp [dedupeGo] at hs
  | cons a rest ih =>
    intro s hs
    rw [dedupeGo] at hs
    split at hs
    · obtain ⟨l₁, l₂, hdec, hfirst⟩ := ih seen s hs
      refine ⟨a :: l₁, l₂, by rw [hdec]; rfl, ?_⟩
      intro x hx
      rcases List.mem_cons.mp hx with hx | hx
      · subst hx; left; assumption
      · exact hfirst x hx
    · rcases List.mem_cons.mp hs with hsa | hs'
      · exact ⟨[], rest, by rw [hsa]; rfl, by intro x hx; simp at hx⟩
      · obtain ⟨l₁, l₂, hdec, hfirst⟩ := ih _ s hs'
        have hne : dedupeKey s ≠ dedupeKey a := by
          intro he
          exact (dedupeGo_key_not_seen _ _ s hs') (he ▸ List.mem_cons_self _ _)
        refine ⟨a :: l₁, l₂, by rw [hdec]; rfl, ?_⟩
        intro x hx
        rcases List.mem_cons.mp hx with hx | hx
        · subst hx; right; exact fun he => hne he.symm
        · rcases hfirst x hx with hseen | hne'
          · rcases List.mem_cons.mp hseen with heq | hseen'
            · right; rw [heq]; exact fun he => hne he.symm
            · left; exact hseen'
          · right; exact hne'

/-- C4: the deduplicated source list contains no two documents with the same
(title, URL) pair, every retained document is the first occurrence of its
(title, URL) pair in the input, and the output is a sublist of the input (so
retained documents appear in first-seen input order). -/
theorem dedupeSources_invariants (l : List NarrativeSource) :
    (dedupeSources l).Pairwise (fun a b => ¬(a.title = b.title ∧ a.url = b.url))
    ∧ (∀ s ∈ dedupeSources l, ∃ l₁ l₂, l = l₁ ++ s :: l₂ ∧
        ∀ x ∈ l₁, ¬(x.title = s.title ∧ x.url = s.url))
    ∧ (dedupeSources l).Sublist l := by
  have hkey : ∀ a b : NarrativeSource,
      a.title = b.title ∧ a.url = b.url → dedupeKey a = dedupeKey b := by
    intro a b ⟨h1, h2⟩
    rw [dedupeKey, dedupeKey, h1, h2]
  refine ⟨?_, ?_, dedupeGo_sublist [] l⟩
  · apply List.Pairwise.imp _ (dedupeGo_pairwise [] l)
    intro a b hne hpair
    exact hne (hkey a b hpair)
  · intro s hs
    obtain ⟨l₁, l₂, hdec, hfirst⟩ := dedupeGo_first_occurrence [] l s hs
    refine ⟨l₁, l₂, hdec, ?_⟩
    intro x hx hpair
    rcases hfirst x hx with hseen | hne
    · simp at hseen
    · exact hne (hkey x s hpair)

/-- Witness for C4: the theorem applied to a concrete three-element input with
one exact duplicate, the membership hypothesis of the first-occurrence clause
discharged at the retained first document. -/
theorem dedupeSources_invariants_witness :
    ((dedupeSources [⟨"t", "u", none⟩, ⟨"v", "w", none⟩, ⟨"t", "u", none⟩]).Pairwise
        (fun a b => ¬(a.title = b.title ∧ a.url = b.url))
      ∧ (∀ s ∈ dedupeSources [⟨"t", "u", none⟩, ⟨"v", "w", none⟩, ⟨"t", "u", none⟩],
          ∃ l₁ l₂, [⟨"t", "u", none⟩, ⟨"v", "w", none⟩, ⟨"t", "u", none⟩] = l₁ ++ s :: l₂ ∧
            ∀ x ∈ l₁, ¬(x.title = s.title ∧ x.url = s.url))
      ∧ (dedupeSources [⟨"t", "u", none⟩, ⟨"v", "w", none⟩, ⟨"t", "u", none⟩]).Sublist
          [⟨"t", "u", none⟩, ⟨"v", "w", none⟩, ⟨"t", "u", none⟩])
    ∧ (∃ l₁ l₂, [⟨"t", "u", none⟩, ⟨"v", "w", none⟩, ⟨"t", "u", none⟩]
          = l₁ ++ (⟨"v", "w", none⟩ : NarrativeSource) :: l₂ ∧
        ∀ x ∈ l₁, ¬(x.title = "v" ∧ x.url = "w")) :=
  ⟨dedupeSources_invariants [⟨"t", "u", none⟩, ⟨"v", "w", none⟩, ⟨"t", "u", none⟩],
   (dedupeSources_invariants [⟨"t", "u", none⟩, ⟨"v", "w", none⟩, ⟨"t", "u", none⟩]).2.1
     ⟨"v", "w", none⟩ (by decide)⟩

/-- C10: deduplication compares the concatenated key `title|url`, not the
(title, URL) pair: the documents ("a|b", "c") and ("a", "b|c") have distinct
pairs but the same key, so the later one is dropped even though no earlier
document has its (title, URL) pair. -/
theorem dedupeSources_key_collision :
    dedupeKey ⟨"a|b", "c", none⟩ = dedupeKey ⟨"a", "b|c", none⟩
    ∧ dedupeSources [⟨"a|b", "c", none⟩, ⟨"a", "b|c", none⟩] = [⟨"a|b", "c", none⟩]
    ∧ ¬((("a" : String) = "a|b") ∧ (("b|c" : String) = "c")) := by
  refine ⟨by decide, by decide, by decide⟩

/-! ## C5: partial-failure isolation of source gathering -/

/-- The outcome of one external call: `.fail` stands for a thrown error, a
timeout, or a non-success HTTP response wherever the source returns the same
empty result for all of them. -/
inductive FetchOutcome (α : Type) where
  | fail : FetchOutcome α
  | ok : α → FetchOutcome α

/-- One encyclopedic summary payload consumed inside `fetchWikipediaContext`. -/
structure WikiSummaryData where
  pageUrl : Option String := none
  extract : Option String := none
  typ : Option String := none
deriving DecidableEq

/-- The per-title summary step of `fetchWikipediaContext`: a failed summary
fetch yields `null`; a pure disambiguation page without extract and a missing
page URL are skipped; a truthy extract becomes the excerpt. -/
def summaryToSource (title : String) (summary : FetchOutcome WikiSummaryData) :
    Option NarrativeSource :=
  match summary with
  | .fail => none
  | .ok s =>
    if s.typ = some "disambiguation" && !(jsTruthy s.extract) then none
    else if jsTruthy s.pageUrl then
      some { title := title, url := s.pageUrl.getD "",
             excerpt := if jsTruthy s.extract then s.extract else none }
    else none

/-- Embeds `fetchWikipediaContext`: a failed or non-success search (or one with
no results, which the source also maps to `[]`) contributes nothing; otherwise
the first two hits are summarized and the successful summaries kept. -/
def fetchWikipediaContext
    (search : FetchOutcome (List (String × FetchOutcome WikiSummaryData))) :
    List NarrativeSource :=
  match search with
  | .fail => []
  | .ok hits =>
    (hits.take 2).filterMap (fun h => if h.1 = "" then none else summaryToSource h.1 h.2)

/-- The reverse-geocode payload consumed by `fetchOpenStreetMapContext`. The
`excerptRepr` field stands for the JSON serialization of the selected response
fields (`display_name`, `category`, `type`, address, allow-listed extratags);
its exact text is irrelevant to every claim here. -/
structure OsmData where
  osmType : Option String := none
  osmId : Option ℤ := none
  excerptRepr : String := ""
deriving DecidableEq

/-- The fallback map URL of `fetchOpenStreetMapContext` (numeric rendering of
the coordinates approximates the JavaScript float printing). -/
def fallbackMapUrl (lm : Landmark) : String :=
  "https://www.openstreetmap.org/#map=19/" ++ toString lm.location.lat ++ "/"
    ++ toString lm.location.lng

/-- Embeds `fetchOpenStreetMapContext`: any failure contributes nothing;
otherwise exactly one synthetic source document whose URL points at the
OSM object when `osm_type` and `osm_id` are both truthy, else at the map. -/
def fetchOpenStreetMapContext (lm : Landmark) (out : FetchOutcome OsmData) :
    List NarrativeSource :=
  match out with
  | .fail => []
  | .ok d =>
    let osmUrl :=
      if jsTruthy d.osmType && (match d.osmId with | some i => i ≠ 0 | none => false) then
        "https://www.openstreetmap.org/" ++ d.osmType.getD "" ++ "/"
          ++ toString (d.osmId.getD 0)
      else fallbackMapUrl lm
    [{ title := "OpenStreetMap (Nominatim)", url := osmUrl, excerpt := some d.excerptRepr }]

/-- One knowledge-graph search hit consumed by `fetchWikidataContext`. The
`excerptRepr` field stands for `JSON.stringify({label, description})`. -/
structure WikidataSearchHit where
  id : String
  label : Option String := none
  excerptRepr : String := ""
deriving DecidableEq

/-- Embeds `fetchWikidataContext`: any failure (or an empty result list)
contributes nothing; otherwise only the first result is used, when its id is
truthy. -/
def fetchWikidataContext (out : FetchOutcome (List WikidataSearchHit)) :
    List NarrativeSource :=
  match out with
  | .fail => []
  | .ok results =>
    match results with
    | [] => []
    | r :: _ =>
      if r.id ≠ "" then
        [{ title := "Wikidata: " ++ jsOrStr r.label r.id,
           url := "https://www.wikidata.org/wiki/" ++ r.id,
           excerpt := some r.excerptRepr }]
      else []

/-- The source-gathering step of the narrative POST handler: the three channels
run in parallel, then their results are concatenated and deduplicated. -/
def gatherSources (lm : Landmark)
    (wiki : FetchOutcome (List (String × FetchOutcome WikiSummaryData)))
    (osm : FetchOutcome OsmData)
    (wikidata : FetchOutcome (List WikidataSearchHit)) : List NarrativeSource :=
  dedupeSources (fetchWikipediaContext wiki ++ fetchOpenStreetMapContext lm osm
    ++ fetchWikidataContext wikidata)

/-- C5: source gathering never raises — each channel is a total function of its
call's outcome — and a failing channel contributes exactly the empty list while
the other two channels' documents are still gathered; when all three fail the
result is the empty list. -/
theorem gatherSources_isolation (lm : Landmark)
    (wiki : FetchOutcome (List (String × FetchOutcome WikiSummaryData)))
    (osm : FetchOutcome OsmData)
    (wikidata : FetchOutcome (List WikidataSearchHit)) :
    fetchWikipediaContext .fail = []
    ∧ fetchOpenStreetMapContext lm .fail = []
    ∧ fetchWikidataContext .fail = []
    ∧ gatherSources lm .fail osm wikidata =
        dedupeSources (fetchOpenStreetMapContext lm osm ++ fetchWikidataContext wikidata)
    ∧ gatherSources lm wiki .fail wikidata =
        dedupeSources (fetchWikipediaContext wiki ++ fetchWikidataContext wikidata)
    ∧ gatherSources lm wiki osm .fail =
        dedupeSources (fetchWikipediaContext wiki ++ fetchOpenStreetMapContext lm osm)
    ∧ gatherSources lm .fail .fail .fail = [] := by
  refine ⟨rfl, rfl, rfl, ?_, ?_, ?_, rfl⟩
  · rw [gatherSources]; rfl
  · rw [gatherSources]
    show dedupeSources (fetchWikipediaContext wiki ++ [] ++ fetchWikidataContext wikidata) = _
    rw [List.append_nil]
  · rw [gatherSources]
    show dedupeSources (fetchWikipediaContext wiki ++ fetchOpenStreetMapContext lm osm ++ []) = _
    rw [List.append_assoc, List.append_nil]

/-! ## C6: two-tier narrative synthesis (`app/api/narrative/route.ts` POST) -/

/-- The outcome of the tier-1 generative call, as observed by
`generateWithOpenAI`: a missing credential, a thrown fetch (network error), a
timeout, a non-success response, a response without message content, or a
response whose extracted content string is passed on. -/
inductive GenOutcome where
  | noCredential : GenOutcome
  | timeout : GenOutcome
  | httpError : GenOutcome
  | noContent : GenOutcome
  | content : String → GenOutcome
deriving DecidableEq

/-- Embeds `generateWithOpenAI` of `app/api/narrative/route.ts`: every failure
mode throws (an `Except.error`); a delivered content string is rejected when
falsy (`!content`) and otherwise returned trimmed. -/
def generateWithOpenAI (out : GenOutcome) : Except String String :=
  match out with
  | .noCredential => .error "OPENAI_API_KEY is not configured"
  | .timeout => .error "LLM generation timeout after 8000ms"
  | .httpError => .error "OpenAI request failed"
  | .noContent => .error "OpenAI response did not contain message content"
  | .content c =>
    if c = "" then .error "OpenAI response did not contain message content"
    else .ok (jsTrim c)

/-- The `NarrativeResponse` shape of `app/api/narrative/route.ts` (sources are
surfaced as title and URL only). -/
structure NarrativeResponse where
  narrative : String
  sources : List (String × String)
  usedLLM : Bool
deriving DecidableEq

/-- The synthesis step of the narrative POST handler: try the generative tier
and fall back to the deterministic template on any tier-1 error, always with
the same gathered sources attached. -/
def narrativeRoutePost (lm : Landmark)
    (wiki : FetchOutcome (List (String × FetchOutcome WikiSummaryData)))
    (osm : FetchOutcome OsmData)
    (wikidata : FetchOutcome (List WikidataSearchHit))
    (gen : GenOutcome) : NarrativeResponse :=
  let sources := gatherSources lm wiki osm wikidata
  match generateWithOpenAI gen with
  | .ok narrative =>
    { narrative := narrative,
      sources := sources.map (fun s => (s.title, s.url)),
      usedLLM := true }
  | .error _ =>
    { narrative := generateLandmarkNarrative lm,
      sources := sources.map (fun s => (s.title, s.url)),
      usedLLM := false }

/-- C6: every tier-1 generative failure — missing credential, timeout,
non-success response, missing or empty content — makes `generateWithOpenAI`
error, and on any such error the route returns the deterministic tier-2
template narrative with `usedLLM = false` and the same gathered sources; the
response is always the complete `{narrative, sources, usedLLM}` structure. -/
theorem narrativeRoutePost_tier1_fallback (lm : Landmark)
    (wiki : FetchOutcome (List (String × FetchOutcome WikiSummaryData)))
    (osm : FetchOutcome OsmData)
    (wikidata : FetchOutcome (List WikidataSearchHit))
    (gen : GenOutcome) :
    (∀ e, generateWithOpenAI gen = .error e →
      narrativeRoutePost lm wiki osm wikidata gen =
        { narrative := generateLandmarkNarrative lm,
          sources := (gatherSources lm wiki osm wikidata).map (fun s => (s.title, s.url)),
          usedLLM := false })
    ∧ (∃ e, generateWithOpenAI .noCredential = .error e)
    ∧ (∃ e, generateWithOpenAI .timeout = .error e)
    ∧ (∃ e, generateWithOpenAI .httpError = .error e)
    ∧ (∃ e, generateWithOpenAI .noContent = .error e)
    ∧ (∃ e, generateWithOpenAI (.content "") = .error e) := by
  refine ⟨?_, ⟨_, rfl⟩, ⟨_, rfl⟩, ⟨_, rfl⟩, ⟨_, rfl⟩, ⟨_, rfl⟩⟩
  intro e he
  rw [narrativeRoutePost, he]

/-- Witness for C6: the theorem applied at a concrete landmark with all three
source channels failed and the credential missing; the tier-1 error hypothesis
is discharged there. -/
theorem narrativeRoutePost_tier1_fallback_witness :
    narrativeRoutePost
        { id := "W", name := "W", category := "Museum", distance := 50,
          location := { lat := 0, lng := 0 } }
        .fail .fail .fail .noCredential =
      { narrative := generateLandmarkNarrative
          { id := "W", name := "W", category := "Museum", distance := 50,
            location := { lat := 0, lng := 0 } },
        sources := (gatherSources
          { id := "W", name := "W", category := "Museum", distance := 50,
            location := { lat := 0, lng := 0 } } .fail .fail .fail).map
            (fun s => (s.title, s.url)),
        usedLLM := false } :=
  (narrativeRoutePost_tier1_fallback
    { id := "W", name := "W", category := "Museum", distance := 50,
      location := { lat := 0, lng := 0 } }
    .fail .fail .fail .noCredential).1 "OPENAI_API_KEY is not configured" rfl

/-! ## C7: area fallback (`app/api/places/route.ts` area POST + `findBestNearbyLandmark`) -/

/-- The address components the area route reads from the reverse-geocode
response (absent components are `none`; the source reads them with `?.`). -/
structure AreaAddress where
  neighbourhood : Option String := none
  suburb : Option String := none
  district : Option String := none
  cityDistrict : Option String := none
  city : Option String := none
  town : Option String := none
  village : Option String := none
  county : Option String := none
deriving DecidableEq

/-- The reverse-geocode payload consumed by `fetchAreaInfo`. -/
structure NominatimArea where
  address : Option AreaAddress := none
  displayName : Option String := none
deriving DecidableEq

/-- The area-name chain of `fetchAreaInfo`: the first truthy value among the
address components, then the first comma segment of the display name, then the
literal "this area". -/
def areaNameOf (addr : AreaAddress) (displayName : Option String) : String :=
  jsOrStr addr.neighbourhood
    (jsOrStr addr.suburb
      (jsOrStr addr.district
        (jsOrStr addr.cityDistrict
          (jsOrStr addr.city
            (jsOrStr addr.town
              (jsOrStr addr.village
                (jsOrStr addr.county
                  (jsOrStr (displayName.map (fun s => firstSegment s ',')) "this area"))))))))

/-- The structure returned by `fetchAreaInfo`. -/
structure AreaInfo where
  areaName : String
  address : AreaAddress
  displayName : String
deriving DecidableEq

/-- Embeds `fetchAreaInfo`: a failed or non-success reverse-geocode throws
("Failed to fetch area information"); otherwise the area name is derived by
the truthy chain and the address defaults to the empty record (`address || {}`,
`displayName || areaName`). -/
def fetchAreaInfo (out : FetchOutcome NominatimArea) : Except String AreaInfo :=
  match out with
  | .fail => .error "Failed to fetch area information"
  | .ok j =>
    let addr := j.address.getD {}
    let areaName := areaNameOf addr j.displayName
    .ok { areaName := areaName, address := addr,
          displayName := jsOrStr j.displayName areaName }

/-- The outcome of the area Wikipedia context fetch: a thrown network error
propagates out of `fetchWikipediaAreaContext` (it has no try/catch), a
non-success search returns `[]`, and otherwise the assembled source documents
are returned. -/
inductive WikiAreaOutcome where
  | thrown : WikiAreaOutcome
  | notOk : WikiAreaOutcome
  | results : List NarrativeSource → WikiAreaOutcome
deriving DecidableEq

/-- Embeds `fetchWikipediaAreaContext` at the granularity C7 needs: a thrown
fetch is an error that reaches the handler's outer catch, a non-success search
yields no sources, and otherwise the summarized results are returned. -/
def fetchWikipediaAreaContextM (out : WikiAreaOutcome) :
    Except String (List NarrativeSource) :=
  match out with
  | .thrown => .error "fetch failed"
  | .notOk => .ok []
  | .results l => .ok l

/-- Embeds `generateAreaNarrativeWithOpenAI`: identical failure structure to
`generateWithOpenAI` (missing credential, thrown fetch, non-success response,
missing or falsy content), returning the trimmed content on success. -/
def generateAreaNarrativeWithOpenAI (out : GenOutcome) : Except String String :=
  match out with
  | .noCredential => .error "OPENAI_API_KEY is not configured"
  | .timeout => .error "OpenAI request failed"
  | .httpError => .error "OpenAI request failed"
  | .noContent => .error "OpenAI response did not contain message content"
  | .content c =>
    if c = "" then .error "OpenAI response did not contain message content"
    else .ok (jsTrim c)

/-- Embeds `generateFallbackAreaNarrative` of the area route. -/
def generateFallbackAreaNarrative (areaName : String) (address : AreaAddress) : String :=
  let city := jsOrStr address.city (jsOrStr address.town "")
  let locationText := if city ≠ "" then areaName ++ ", " ++ city else areaName
  "There is no specific landmark around you, however you are in " ++ locationText
    ++ ". This area has its own unique character and history. Take a moment to observe your surroundings and appreciate the local atmosphere."

/-- The `AreaResponse` shape of the area route. -/
structure AreaResponse where
  narrative : String
  sources : List (String × String)
  usedLLM : Bool
  areaName : Option String := none
deriving DecidableEq

/-- Embeds the area POST handler: reverse-geocode, Wikipedia area context, then
generative tier with deterministic fallback; an error from either fetch reaches
the outer catch and surfaces as an error response (which the client-side
`fetchAreaNarrative` re-throws). -/
def areaRoutePost (areaOut : FetchOutcome NominatimArea) (wikiOut : WikiAreaOutcome)
    (gen : GenOutcome) : Except String AreaResponse :=
  match fetchAreaInfo areaOut with
  | .error e => .error e
  | .ok info =>
    match fetchWikipediaAreaContextM wikiOut with
    | .error e => .error e
    | .ok wikiSources =>
      match generateAreaNarrativeWithOpenAI gen with
      | .ok narrative =>
        .ok { narrative := narrative,
              sources := wikiSources.map (fun s => (s.title, s.url)),
              usedLLM := true, areaName := some info.areaName }
      | .error _ =>
        .ok { narrative := generateFallbackAreaNarrative info.areaName info.address,
              sources := wikiSources.map (fun s => (s.title, s.url)),
              usedLLM := false, areaName := some info.areaName }

/-- The result shape of `findBestNearbyLandmark` (the no-area success path
leaves `areaName` undefined). -/
structure FindResult where
  landmark : Option Landmark
  narrative : String
  areaName : Option String := none
deriving DecidableEq

/-- Embeds the score map construction of `findBestNearbyLandmark`
(`significanceScores.set` overwrites, so later entries win: lookup on the
reversed association list). -/
def scoresFromResults (results : List (Landmark × ℤ)) : List (String × ℤ) :=
  (results.map (fun r => (r.1.id, r.2))).reverse

/-- Embeds `findBestNearbyLandmark` of `lib/landmarks.ts` after a successful
landmark search: the search result list, the optional generative-narrative
outcome, the optional batch-scoring outcome (`none` = no scorer supplied,
`some (.error _)` = scoring threw), the threshold, and the optional
area-narrative fetch outcome (`none` = no area fetcher supplied) are explicit
arguments. -/
def findBestNearbyLandmark (landmarks : List Landmark)
    (generateNarrative : Option (Except String String))
    (scorer : Option (Except String (List (Landmark × ℤ))))
    (significanceThreshold : ℤ)
    (areaFetch : Option (Except String AreaResponse)) : Option FindResult :=
  match landmarks with
  | [] =>
    match areaFetch with
    | some (.ok r) => some { landmark := none, narrative := r.narrative,
                             areaName := r.areaName }
    | some (.error _) => none
    | none => none
  | _ :: _ =>
    let bestLandmark :=
      match scorer with
      | some (.ok scoredResults) =>
        selectWithRelaxation landmarks (scoresFromResults scoredResults)
          significanceThreshold
      | some (.error _) => selectBestLandmark landmarks
      | none => selectBestLandmark landmarks
    match bestLandmark with
    | none =>
      match areaFetch with
      | some (.ok r) => some { landmark := none, narrative := r.narrative,
                               areaName := r.areaName }
      | some (.error _) => none
      | none => none
    | some best =>
      let narrative :=
        match generateNarrative with
        | some (.ok n) => n
        | some (.error _) => generateLandmarkNarrative best
        | none => generateLandmarkNarrative best
      some { landmark := some best, narrative := narrative }

theorem jsOrStr_ne_empty (a : Option String) {b : String} (hb : b ≠ "") :
    jsOrStr a b ≠ "" := by
  cases a with
  | none => exact hb
  | some s =>
    rw [jsOrStr]
    split
    · exact hb
    · assumption

theorem areaNameOf_ne_empty (addr : AreaAddress) (displayName : Option String) :
    areaNameOf addr displayName ≠ "" := by
  rw [areaNameOf]
  apply jsOrStr_ne_empty
  apply jsOrStr_ne_empty
  apply jsOrStr_ne_empty
  apply jsOrStr_ne_empty
  apply jsOrStr_ne_empty
  apply jsOrStr_ne_empty
  apply jsOrStr_ne_empty
  apply jsOrStr_ne_empty
  apply jsOrStr_ne_empty
  decide

theorem string_append_ne_empty_left {s : String} (t : String) (h : s.data ≠ []) :
    s ++ t ≠ "" := by
  intro he
  apply h
  have hd : (s ++ t).data = ("" : String).data := by rw [he]
  rw [String.data_append] at hd
  exact (List.append_eq_nil.mp hd).1

theorem generateFallbackAreaNarrative_ne_empty (areaName : String)
    (address : AreaAddress) : generateFallbackAreaNarrative areaName address ≠ "" := by
  rw [generateFallbackAreaNarrative]
  apply string_append_ne_empty_left
  rw [String.data_append]
  intro h
  exact absurd (List.append_eq_nil.mp h).1 (by decide)

/-- Counterexample to C7 as stated: with the landmark search empty and the area
fetcher supplied, a generative response whose content is a single space passes
the source's `!content` check and is trimmed to the empty string, so the
pipeline returns a result whose narrative is empty — the claimed "non-empty
narrative" fails. -/
theorem findBestNearbyLandmark_area_empty_narrative_cex :
    findBestNearbyLandmark [] none none 30
        (some (areaRoutePost (.ok {}) (.results []) (.content " "))) =
      some { landmark := none, narrative := "", areaName := some "this area" } := by
  decide

/-- C7 (amended): with an empty landmark search and the area fetcher supplied,
a failure of the area branch's own fetch makes the pipeline return no result
rather than propagating the error; on success the pipeline returns a result
with no landmark, the area route's narrative, and a non-empty area name, and
whenever the area generative tier failed (so the deterministic template was
used) that narrative is also non-empty. -/
theorem findBestNearbyLandmark_area_fallback (areaOut : FetchOutcome NominatimArea)
    (wikiOut : WikiAreaOutcome) (gen : GenOutcome) :
    (∀ e, areaRoutePost areaOut wikiOut gen = .error e →
      findBestNearbyLandmark [] none none 30
        (some (areaRoutePost areaOut wikiOut gen)) = none)
    ∧ (∀ resp, areaRoutePost areaOut wikiOut gen = .ok resp →
        ∃ r a, findBestNearbyLandmark [] none none 30 (some (.ok resp)) = some r ∧
          r.landmark = none ∧ r.narrative = resp.narrative ∧
          r.areaName = some a ∧ a ≠ "" ∧
          (∀ e, generateAreaNarrativeWithOpenAI gen = .error e → r.narrative ≠ "")) := by
  constructor
  · intro e he
    rw [he]
    rfl
  · intro resp hresp
    cases areaOut with
    | fail => simp [areaRoutePost, fetchAreaInfo] at hresp
    | ok j =>
      cases wikiOut with
      | thrown =>
        simp [areaRoutePost, fetchAreaInfo, fetchWikipediaAreaContextM] at hresp
      | notOk =>
        rw [areaRoutePost] at hresp
        simp only [fetchAreaInfo, fetchWikipediaAreaContextM] at hresp
        cases hg : generateAreaNarrativeWithOpenAI gen with
        | ok n =>
          rw [hg] at hresp
          cases hresp
          refine ⟨_, areaNameOf (j.address.getD {}) j.displayName, rfl, rfl, rfl, rfl,
            areaNameOf_ne_empty _ _, ?_⟩
          intro e he
          exact absurd he (by simp)
        | error e0 =>
          rw [hg] at hresp
          cases hresp
          exact ⟨_, areaNameOf (j.address.getD {}) j.displayName, rfl, rfl, rfl, rfl,
            areaNameOf_ne_empty _ _,
            fun e he => generateFallbackAreaNarrative_ne_empty _ _⟩
      | results l =>
        rw [areaRoutePost] at hresp
        simp only [fetchAreaInfo, fetchWikipediaAreaContextM] at hresp
        cases hg : generateAreaNarrativeWithOpenAI gen with
        | ok n =>
          rw [hg] at hresp
          cases hresp
          refine ⟨_, areaNameOf (j.address.getD {}) j.displayName, rfl, rfl, rfl, rfl,
            areaNameOf_ne_empty _ _, ?_⟩
          intro e he
          exact absurd he (by simp)
        | error e0 =>
          rw [hg] at hresp
          cases hresp
          exact ⟨_, areaNameOf (j.address.getD {}) j.displayName, rfl, rfl, rfl, rfl,
            areaNameOf_ne_empty _ _,
            fun e he => generateFallbackAreaNarrative_ne_empty _ _⟩

/-- Witness for the amended C7: the theorem applied at a concrete reverse-geocode
success with no usable address, no Wikipedia hits, and a missing generative
credential, the success hypothesis discharged there. -/
theorem findBestNearbyLandmark_area_fallback_witness :
    ∃ r a, findBestNearbyLandmark [] none none 30
        (some (.ok { narrative := generateFallbackAreaNarrative "this area" {},
                     sources := [], usedLLM := false,
                     areaName := some "this area" })) = some r ∧
      r.landmark = none ∧
      r.narrative = ({ narrative := generateFallbackAreaNarrative "this area" {},
                       sources := ([] : List (String × String)), usedLLM := false,
                       areaName := some "this area" } : AreaResponse).narrative ∧
      r.areaName = some a ∧ a ≠ "" ∧
      (∀ e, generateAreaNarrativeWithOpenAI .noCredential = .error e → r.narrative ≠ "") :=
  (findBestNearbyLandmark_area_fallback (.ok {}) (.results []) .noCredential).2
    { narrative := generateFallbackAreaNarrative "this area" {},
      sources := [], usedLLM := false, areaName := some "this area" } rfl
